import Mathlib

/-!
Shallow embedding of golang-dhcpcd's reconciliation engines.

The repository configures network interfaces either through DHCPv4 or statically.
The definitions below are translated from the Go source: the DHCP adapter
(internal/adapter/dhcp manager), the static adapter (internal/adapter/static
manager), the legacy per-interface clients (internal/pkg/dhcpc, internal/pkg/static),
the configuration validator (internal/pkg/config) and the serve command.
Kernel interactions (netlink) are modelled by passing the listed state in and the
outcomes of fallible adapter calls as parameters; deletions, which the Go code
tolerates failing, are modelled as succeeding.
-/

namespace GolangDhcpcd

/-- An IPv4 address as its four bytes (the 4-byte form of Go's net.IP). -/
structure Ip where
  a : Nat
  b : Nat
  c : Nat
  d : Nat
deriving DecidableEq, Repr

/-- An IPv4 destination network: address plus mask length, the data Go renders
as e.g. "0.0.0.0/0" by IPNet.String(). -/
structure Cidr where
  addr : Ip
  maskLen : Nat
deriving DecidableEq, Repr

/-- A netlink address restricted to the fields the reconcilers consult:
the IP (compared with net.IP.Equal) and the mask bytes (compared through
Mask.String() equality, which for two 4-byte masks is byte equality). -/
structure Addr where
  ip : Ip
  mask : Ip
deriving DecidableEq, Repr

/-- A netlink route restricted to the fields the reconcilers consult:
Dst (nil or a network), Gw (nil or an IPv4 gateway) and LinkIndex. -/
structure Route where
  dst : Option Cidr
  gw : Option Ip
  linkIndex : Nat
deriving DecidableEq, Repr

/-- A kernel mutation issued by a reconciliation pass, in issue order. -/
inductive KernelOp where
  | addAddr (a : Addr)
  | delAddr (a : Addr)
  | addRoute (r : Route)
  | delRoute (r : Route)
deriving DecidableEq, Repr

/-- The destination 0.0.0.0/0. -/
def zeroCidr : Cidr := ⟨⟨0, 0, 0, 0⟩, 0⟩

/-- The default-route test of the dhcp adapter's configureDefaultRoute:
route.Dst == nil || route.Dst.String() == "0.0.0.0/0". -/
def dhcpIsDefault (r : Route) : Bool :=
  r.dst == none || r.dst == some zeroCidr

/-- The dhcp adapter's target-route check: a default route whose Gw is non-nil,
equals the desired gateway, and whose LinkIndex is the handle's index. -/
def dhcpRouteMatches (g : Ip) (i : Nat) (r : Route) : Bool :=
  dhcpIsDefault r && r.gw == some g && r.linkIndex == i

/-- The route the engines add: LinkIndex plus Gw, Dst left nil. -/
def defaultRouteTo (g : Ip) (i : Nat) : Route := ⟨none, some g, i⟩

/-- The dhcp adapter's configureDefaultRoute: if some route passes the
target-route check, return with no kernel operation; otherwise delete every
default route that does not match gateway and link index (the Go code tolerates
those deletions failing; they are modelled as succeeding), then add the target
route. `addOutcome` is the netlink result of that add (`none` = success); on an
add error the Go code returns the error, failing the pass. Returns the route
table afterwards together with the operations issued. -/
def dhcp_configureDefaultRoute (routes : List Route) (g : Ip) (i : Nat)
    (addOutcome : Option String) : Except String (List Route × List KernelOp) :=
  if routes.any (dhcpRouteMatches g i) then
    .ok (routes, [])
  else
    let kept := routes.filter fun r => !(dhcpIsDefault r && !(r.gw == some g && r.linkIndex == i))
    let delOps := (routes.filter fun r => dhcpIsDefault r && !(r.gw == some g && r.linkIndex == i)).map KernelOp.delRoute
    match addOutcome with
    | none => .ok (kept ++ [defaultRouteTo g i], delOps ++ [KernelOp.addRoute (defaultRouteTo g i)])
    | some e => .error ("failed to add default route: " ++ e)

/-- The address-reconciliation section shared verbatim by the dhcp adapter's
applyDHCPLease and the static adapter's applyStaticConfig (and their legacy
twins in internal/pkg): if some existing address equals the target in IP and
mask, do nothing; otherwise delete every address with a different IP (failures
tolerated in Go, modelled as succeeding) and add the target. `addOutcome` is
the netlink result of that add; on an add error the Go code returns the error,
failing the pass (no special case for an already-exists error). -/
def reconcileAddresses (existing : List Addr) (target : Addr)
    (addOutcome : Option String) : Except String (List Addr × List KernelOp) :=
  if existing.any (fun a => a.ip == target.ip && a.mask == target.mask) then
    .ok (existing, [])
  else
    let kept := existing.filter fun a => a.ip == target.ip
    let delOps := (existing.filter fun a => !(a.ip == target.ip)).map KernelOp.delAddr
    match addOutcome with
    | none => .ok (kept ++ [target], delOps ++ [KernelOp.addAddr target])
    | some e => .error ("failed to add IP address: " ++ e)

/-- The route a static-engine scan step considers a match: Dst nil, Gw non-nil
and equal to the desired gateway, LinkIndex equal to the handle's index. -/
def staticRouteMatches (g : Ip) (i : Nat) (r : Route) : Bool :=
  r.dst == none && r.gw == some g && r.linkIndex == i

/-- The scan loop of the static adapter's configureDefaultRoute: walk the
routes; a route with nil Dst and non-nil Gw either matches the target (stop
scanning, keep the rest untouched) or is deleted (tolerated failure, modelled
as succeeding); every other route is skipped. Returns (found a match, routes
remaining, delete operations issued). -/
def staticRouteScan (g : Ip) (i : Nat) : List Route → Bool × List Route × List KernelOp
  | [] => (false, [], [])
  | r :: rest =>
    if r.dst == none && r.gw != none then
      if r.gw == some g && r.linkIndex == i then
        (true, r :: rest, [])
      else
        let (found, kept, ops) := staticRouteScan g i rest
        (found, kept, KernelOp.delRoute r :: ops)
    else
      let (found, kept, ops) := staticRouteScan g i rest
      (found, r :: kept, ops)

/-- Whether `pat` occurs inside the character list. -/
def charsContain (pat : List Char) : List Char → Bool
  | [] => pat.isEmpty
  | c :: rest => pat.isPrefixOf (c :: rest) || charsContain pat rest

/-- Go's strings.Contains, over the characters of the strings. -/
def strContains (s pat : String) : Bool :=
  charsContain pat.data s.data

/-- The static adapter's configureDefaultRoute (identical in the legacy static
client): scan the routes; if no match was found, add the target route. An add
error whose text contains "file exists" is logged and ignored (treated as
success); any other add error fails the pass. When the add is tolerated as
already-existing, the kernel already holds the target; the returned list
reflects only the mutations the code itself performed. -/
def static_configureDefaultRoute (routes : List Route) (g : Ip) (i : Nat)
    (addOutcome : Option String) : Except String (List Route × List KernelOp) :=
  let (found, kept, ops) := staticRouteScan g i routes
  if found then
    .ok (kept, ops)
  else
    match addOutcome with
    | none => .ok (kept ++ [defaultRouteTo g i], ops ++ [KernelOp.addRoute (defaultRouteTo g i)])
    | some e =>
      if strContains e ("file exists") then
        .ok (kept, ops ++ [KernelOp.addRoute (defaultRouteTo g i)])
      else
        .error ("failed to add default route: " ++ e)

/-- One full reconciliation pass of the dhcp adapter's applyDHCPLease over the
kernel state it mutates (all kernel operations succeeding): address section,
then the route section when the lease carried at least one router. -/
def dhcp_applyPass (addrs : List Addr) (routes : List Route) (target : Addr)
    (gw : Option Ip) (i : Nat) :
    Except String (List Addr × List Route × List KernelOp) := do
  let (addrs2, aops) ← reconcileAddresses addrs target none
  match gw with
  | none => return (addrs2, routes, aops)
  | some g => do
    let (routes2, rops) ← dhcp_configureDefaultRoute routes g i none
    return (addrs2, routes2, aops ++ rops)

/-- One full reconciliation pass of the static adapter's applyStaticConfig
(all kernel operations succeeding): address section, then the route section
when a gateway is configured (config.Gateway not empty). -/
def static_applyPass (addrs : List Addr) (routes : List Route) (target : Addr)
    (gw : Option Ip) (i : Nat) :
    Except String (List Addr × List Route × List KernelOp) := do
  let (addrs2, aops) ← reconcileAddresses addrs target none
  match gw with
  | none => return (addrs2, routes, aops)
  | some g => do
    let (routes2, rops) ← static_configureDefaultRoute routes g i none
    return (addrs2, routes2, aops ++ rops)

/-- Whether an Except is an error. -/
def exceptIsErr {ε α : Type} : Except ε α → Bool
  | .error _ => true
  | .ok _ => false

/-- A DHCPv4 ACK restricted to the fields the engine consults. Optional fields
are None when the corresponding option is absent from the ACK. -/
structure Lease where
  yiaddr : Ip
  subnetMask : Option Ip
  routers : List Ip
  dnsServers : List Ip
  leaseSeconds : Option Nat
  renewalSeconds : Option Nat
deriving DecidableEq, Repr

/-- The retry loop of the dhcp adapter's getDHCPLease. `att n` is the outcome
of the n-th RequestLease call (1-based); `delay` the inter-attempt sleep in
seconds; `a` the current attempt number; the last argument the attempts still
permitted. Returns the overall outcome, the number of the last attempt made,
and the sleeps performed between attempts. -/
def leaseRetryLoop (att : Nat → Except String Lease) (delay : Nat) :
    Nat → Nat → Except String Lease × Nat × List Nat
  | a, 0 => (.error ("failed to get DHCP lease"), a - 1, [])
  | a, k + 1 =>
    match att a with
    | .ok l => (.ok l, a, [])
    | .error e =>
      if k = 0 then
        (.error ("DHCP lease request failed after 3 attempts: " ++ e), a, [])
      else
        let (res, n, sleeps) := leaseRetryLoop att delay (a + 1) k
        (res, n, delay :: sleeps)

/-- The dhcp adapter's getDHCPLease: maxRetries = 3, retryDelay = 2 seconds. -/
def getDHCPLease (att : Nat → Except String Lease) :
    Except String Lease × Nat × List Nat :=
  leaseRetryLoop att 2 1 3

/-- One renewal-timer firing of the dhcp adapter's Run loop: attempt the lease;
on failure reset the timer to 30 seconds without touching kernel state; on
success build the target from the lease (mask defaulting to 255.255.255.0,
gateway the first router if any), run the reconciliation pass (kernel
operations succeeding), and reset the timer to the lease's renewal time
(default 30 seconds). Returns the timer value in seconds, the kernel
operations issued, and the resulting kernel state. -/
def dhcp_runCycle (att : Nat → Except String Lease) (addrs : List Addr)
    (routes : List Route) (i : Nat) :
    Nat × List KernelOp × List Addr × List Route :=
  match (getDHCPLease att).1 with
  | .error _ => (30, [], addrs, routes)
  | .ok lease =>
    let target : Addr := ⟨lease.yiaddr, lease.subnetMask.getD ⟨255, 255, 255, 0⟩⟩
    match dhcp_applyPass addrs routes target lease.routers.head? i with
    | .error _ => (lease.renewalSeconds.getD 30, [], addrs, routes)
    | .ok (a2, r2, ops) => (lease.renewalSeconds.getD 30, ops, a2, r2)

/-- The outcome of handing a textual address field to Go's net.ParseIP:
a dotted-quad IPv4 literal (ParseIP succeeds, To4 non-nil), an IPv6 literal
that is not 4-mappable (ParseIP succeeds, To4 nil), or a malformed string
(ParseIP returns nil). -/
inductive IpLiteral where
  | v4 (a b c d : Nat)
  | v6 (tag : Nat)
  | malformed (s : String)
deriving DecidableEq, Repr

/-- net.ParseIP(s) != nil. -/
def parsesAsIP : IpLiteral → Bool
  | .malformed _ => false
  | _ => true

/-- net.ParseIP(s).To4() != nil. -/
def isV4 : IpLiteral → Bool
  | .v4 _ _ _ _ => true
  | _ => false

/-- The value fields of a static policy; `gateway = none` encodes the empty
gateway string. -/
structure StaticValues where
  ip : IpLiteral
  netmask : IpLiteral
  gateway : Option IpLiteral
deriving DecidableEq, Repr

/-- The legacy static client's validateConfig (internal/pkg/static): ip and
netmask must parse and be IPv4; the gateway, when non-empty, must parse and be
IPv4. Returns the error, or none on success. -/
def static_validateConfig (cfg : StaticValues) : Option String :=
  if !parsesAsIP cfg.ip then some ("invalid IP address")
  else if !isV4 cfg.ip then some ("only IPv4 addresses are supported")
  else if !parsesAsIP cfg.netmask then some ("invalid netmask")
  else if !isV4 cfg.netmask then some ("only IPv4 netmasks are supported")
  else
    match cfg.gateway with
    | none => none
    | some gwLit =>
      if !parsesAsIP gwLit then some ("invalid gateway address")
      else if !isV4 gwLit then some ("only IPv4 gateway addresses are supported")
      else none

/-- The state the static adapter's NewManager stores. -/
structure StaticManagerModel where
  ifaceName : String
  values : StaticValues
deriving DecidableEq, Repr

/-- The static adapter's NewManager: fails when the interface does not exist or
the interface configuration has no static section; otherwise stores the values
unexamined (no value validation happens at construction). -/
def static_NewManager (ifaceName : String) (ifaceExists : Bool)
    (staticSection : Option StaticValues) : Except String StaticManagerModel :=
  if !ifaceExists then .error ("interface not found")
  else
    match staticSection with
    | none => .error ("interface configuration does not have static IP settings")
    | some v => .ok ⟨ifaceName, v⟩

/-- The textual fields of a static section as the configuration file carries
them; an absent gateway is the empty string. -/
structure StaticStrings where
  ip : String
  netmask : String
  gateway : String
deriving DecidableEq, Repr

/-- config.validateStaticConfig: only non-emptiness of ip and netmask is
checked. -/
def validateStaticConfig (ifaceName : String) (s : StaticStrings) : Option String :=
  if s.ip == "" then some ("interface " ++ ifaceName ++ ": static IP address is required")
  else if s.netmask == "" then some ("interface " ++ ifaceName ++ ": static netmask is required")
  else none

/-- The 32-bit value of a dotted-quad mask. -/
def maskBits (a b c d : Nat) : Nat :=
  ((a * 256 + b) * 256 + c) * 256 + d

/-- Whether a dotted-quad mask consists of k leading ones followed by zeros for
some k between 0 and 32. -/
def contiguousMask (a b c d : Nat) : Bool :=
  (List.range 33).any fun k => maskBits a b c d == 2 ^ 32 - 2 ^ (32 - k)

/-- The ipNet the static apply path builds: ParseIP the ip (error if nil),
ParseIP the netmask (error if nil), then use the mask's bytes verbatim as
net.IPMask(mask.To4()); no conversion to a mask length takes place. -/
def static_buildIPNet (ip netmask : IpLiteral) :
    Except String (IpLiteral × IpLiteral) :=
  if !parsesAsIP ip then .error ("invalid IP address")
  else if !parsesAsIP netmask then .error ("invalid netmask")
  else .ok (ip, netmask)

/-- How a serve invocation ends before any engine work: config load failed
(handler prints and returns), config validation failed (handler prints and
returns), or the handler proceeded to start the daemon. -/
inductive ServeOutcome where
  | configError (printed : String)
  | validateError (printed : String)
  | proceeded
deriving DecidableEq, Repr

/-- The configuration-handling head of serveCmd.Run: on a load error print
"Config error: ..." and return; on a validation error print
"Config validation error: ..." and return; otherwise proceed. -/
def serveRun (loadResult : Except String Unit) (validateResult : Option String) :
    ServeOutcome :=
  match loadResult with
  | .error e => .configError ("Config error: " ++ e)
  | .ok _ =>
    match validateResult with
    | some e => .validateError ("Config validation error: " ++ e)
    | none => .proceeded

/-- The error serveCmd surfaces to cobra's Execute. serveCmd declares Run, a
handler returning nothing (not RunE), so no outcome of the handler reaches
Execute as an error. Modelled from cobra's API as the command files use it. -/
def serveSurfacedError (o : ServeOutcome) : Option String :=
  match o with
  | .configError _ => none
  | .validateError _ => none
  | .proceeded => none

/-- cmd.Execute: cobra.CheckErr(rootCmd.Execute()) exits 1 on a non-nil error
and otherwise lets the process terminate normally with exit code 0. -/
def processExitCode (surfaced : Option String) : Nat :=
  match surfaced with
  | some _ => 1
  | none => 0

/-- net.IP.String() for an IPv4 value. -/
def ipToString (ip : Ip) : String :=
  toString ip.a ++ "." ++ toString ip.b ++ "." ++ toString ip.c ++ "." ++ toString ip.d

/-- The resolver-file content the dhcp adapter's configureDNS builds: the
generator header, then one nameserver line per server in order. -/
def resolvConfContent (dns : List Ip) : String :=
  "# Generated by golang-dhcpcd\n" ++
    String.join (dns.map fun d => "nameserver " ++ ipToString d ++ "\n")

/-- What configureDNS did to /etc/resolv.conf. -/
inductive DNSAction where
  | skipped
  | wrote (content : String) (mode : Nat)
deriving DecidableEq, Repr

/-- The dhcp adapter's configureDNS: build the prospective content, read the
current file; if the read succeeds and the bytes are equal, skip the write;
otherwise write the new content with mode 0644. `currentFile` is the ReadFile
outcome. -/
def configureDNS (currentFile : Except String String) (dns : List Ip) : DNSAction :=
  let newContent := resolvConfContent dns
  match currentFile with
  | .ok cur => if cur == newContent then .skipped else .wrote newContent 0o644
  | .error _ => .wrote newContent 0o644

/-- The DNS step of applyDHCPLease: configureDNS runs exactly when the ACK
carried at least one DNS server. -/
def dhcp_dnsStep (currentFile : Except String String) (dns : List Ip) :
    Option DNSAction :=
  if dns.length > 0 then some (configureDNS currentFile dns) else none

/-- The ticker loop of the static adapter's monitorInterface over a finite
trace of tick outcomes (each the checkAndRepairConfiguration result, `some e`
a failure): every failure is only logged and the loop continues to the next
tick. Returns how many ticks were processed and the errors logged. -/
def static_monitorLoop : List (Option String) → Nat × List String
  | [] => (0, [])
  | t :: rest =>
    let (n, logged) := static_monitorLoop rest
    match t with
    | some e => (n + 1, e :: logged)
    | none => (n + 1, logged)

/-- The static adapter's Run: one initial apply pass; on its failure return
the wrapped error without entering the monitor loop; on success enter
monitorInterface for the given tick trace. `applyResult` is the outcome of the
initial applyStaticConfig (its error cases: failed link lookup, unparseable ip
or netmask, failed add of the target address or route). -/
def static_Run (applyResult : Option String) (ticks : List (Option String)) :
    Except String (Nat × List String) :=
  match applyResult with
  | some e => .error ("failed to apply static configuration: " ++ e)
  | none => .ok (static_monitorLoop ticks)

theorem staticRouteMatches_split (g : Ip) (i : Nat) (r : Route) :
    staticRouteMatches g i r =
      ((r.dst == none && r.gw != none) && (r.gw == some g && r.linkIndex == i)) := by
  cases hgw : r.gw with
  | none => simp [staticRouteMatches, hgw]
  | some x =>
    cases hd : (r.dst == none) <;> cases hl : (r.linkIndex == i) <;>
      simp [staticRouteMatches, hgw, hd, hl]

theorem staticRouteScan_fst (g : Ip) (i : Nat) (rs : List Route) :
    (staticRouteScan g i rs).1 = rs.any (staticRouteMatches g i) := by
  induction rs with
  | nil => rfl
  | cons r rest ih =>
    rcases hrest : staticRouteScan g i rest with ⟨found, kept, ops⟩
    rw [List.any_cons, staticRouteMatches_split]
    by_cases h1 : (r.dst == none && r.gw != none) = true
    · by_cases h2 : (r.gw == some g && r.linkIndex == i) = true
      · simp [staticRouteScan, h1, h2]
      · simp only [staticRouteScan, h1, if_true, h2, if_false, hrest,
          Bool.not_eq_true] at ih ⊢
        simp [h1, h2, ih, hrest]
    · simp only [staticRouteScan, h1, if_false, hrest, Bool.not_eq_true] at ih ⊢
      simp [h1, ih, hrest]

theorem staticRouteScan_found_fixpoint (g : Ip) (i : Nat) (rs kept : List Route)
    (ops : List KernelOp) (h : staticRouteScan g i rs = (true, kept, ops)) :
    staticRouteScan g i kept = (true, kept, []) := by
  induction rs generalizing kept ops with
  | nil => simp [staticRouteScan] at h
  | cons r rest ih =>
    by_cases h1 : (r.dst == none && r.gw != none) = true
    · by_cases h2 : (r.gw == some g && r.linkIndex == i) = true
      · have hstep : staticRouteScan g i (r :: rest) = (true, r :: rest, []) := by
          simp [staticRouteScan, h1, h2]
        rw [hstep] at h
        have hk : r :: rest = kept := congrArg (fun p => p.2.1) h
        subst hk
        exact hstep
      · rcases hrest : staticRouteScan g i rest with ⟨found, kept2, ops2⟩
        have hstep : staticRouteScan g i (r :: rest) =
            (found, kept2, KernelOp.delRoute r :: ops2) := by
          simp [staticRouteScan, h1, h2, hrest]
        rw [hstep] at h
        have hf : found = true := congrArg Prod.fst h
        have hk : kept2 = kept := congrArg (fun p => p.2.1) h
        subst hf hk
        exact ih kept2 ops2 hrest
    · rcases hrest : staticRouteScan g i rest with ⟨found, kept2, ops2⟩
      have hstep : staticRouteScan g i (r :: rest) = (found, r :: kept2, ops2) := by
        simp [staticRouteScan, h1, hrest]
      rw [hstep] at h
      have hf : found = true := congrArg Prod.fst h
      have hk : r :: kept2 = kept := congrArg (fun p => p.2.1) h
      subst hf hk
      have ih2 := ih kept2 ops2 hrest
      simp [staticRouteScan, h1, ih2]

theorem staticRouteScan_unfound_kept (g : Ip) (i : Nat) (rs kept : List Route)
    (ops : List KernelOp) (h : staticRouteScan g i rs = (false, kept, ops)) :
    ∀ r ∈ kept, (r.dst == none && r.gw != none) = false := by
  induction rs generalizing kept ops with
  | nil =>
    have hk : ([] : List Route) = kept := congrArg (fun p => p.2.1) h
    subst hk
    simp
  | cons r rest ih =>
    by_cases h1 : (r.dst == none && r.gw != none) = true
    · by_cases h2 : (r.gw == some g && r.linkIndex == i) = true
      · simp [staticRouteScan, h1, h2] at h
      · rcases hrest : staticRouteScan g i rest with ⟨found, kept2, ops2⟩
        have hstep : staticRouteScan g i (r :: rest) =
            (found, kept2, KernelOp.delRoute r :: ops2) := by
          simp [staticRouteScan, h1, h2, hrest]
        rw [hstep] at h
        have hk : kept2 = kept := congrArg (fun p => p.2.1) h
        have hf : found = false := congrArg Prod.fst h
        subst hk hf
        exact ih kept2 ops2 hrest
    · rcases hrest : staticRouteScan g i rest with ⟨found, kept2, ops2⟩
      have hstep : staticRouteScan g i (r :: rest) = (found, r :: kept2, ops2) := by
        simp [staticRouteScan, h1, hrest]
      rw [hstep] at h
      have hk : r :: kept2 = kept := congrArg (fun p => p.2.1) h
      have hf : found = false := congrArg Prod.fst h
      subst hk hf
      intro x hx
      rcases List.mem_cons.mp hx with hx | hx
      · subst hx
        exact Bool.not_eq_true _ ▸ h1
      · exact ih kept2 ops2 hrest x hx

theorem staticRouteScan_skipped_append_target (g : Ip) (i : Nat)
    (kept : List Route)
    (hk : ∀ r ∈ kept, (r.dst == none && r.gw != none) = false) :
    staticRouteScan g i (kept ++ [defaultRouteTo g i]) =
      (true, kept ++ [defaultRouteTo g i], []) := by
  induction kept with
  | nil => simp [staticRouteScan, defaultRouteTo]
  | cons r rest ih =>
    have h1 : (r.dst == none && r.gw != none) = false := hk r (List.mem_cons_self ..)
    have ih2 := ih fun x hx => hk x (List.mem_cons_of_mem _ hx)
    simp [staticRouteScan, h1, ih2]

theorem reconcileAddresses_none_eq (existing : List Addr) (target : Addr) :
    reconcileAddresses existing target none =
      if existing.any (fun a => a.ip == target.ip && a.mask == target.mask) then
        .ok (existing, [])
      else
        .ok (existing.filter (fun a => a.ip == target.ip) ++ [target],
          ((existing.filter fun a => !(a.ip == target.ip)).map KernelOp.delAddr)
            ++ [KernelOp.addAddr target]) := by
  by_cases hc : existing.any (fun a => a.ip == target.ip && a.mask == target.mask) = true <;>
    simp [reconcileAddresses, hc]

theorem reconcileAddresses_second (existing : List Addr) (target : Addr)
    (A : List Addr) (ops : List KernelOp)
    (h : reconcileAddresses existing target none = .ok (A, ops)) :
    reconcileAddresses A target none = .ok (A, []) := by
  rw [reconcileAddresses_none_eq] at h
  by_cases hc : existing.any (fun a => a.ip == target.ip && a.mask == target.mask) = true
  · rw [if_pos hc] at h
    injection h with h2
    have hA : existing = A := congrArg Prod.fst h2
    subst hA
    simp [reconcileAddresses, hc]
  · rw [if_neg hc] at h
    injection h with h2
    have hA : existing.filter (fun a => a.ip == target.ip) ++ [target] = A :=
      congrArg Prod.fst h2
    subst hA
    simp [reconcileAddresses, List.any_append]

theorem dhcpRouteMatches_target (g : Ip) (i : Nat) :
    dhcpRouteMatches g i (defaultRouteTo g i) = true := by
  simp [dhcpRouteMatches, dhcpIsDefault, defaultRouteTo]

theorem dhcp_configureDefaultRoute_second (routes : List Route) (g : Ip) (i : Nat)
    (R : List Route) (ops : List KernelOp)
    (h : dhcp_configureDefaultRoute routes g i none = .ok (R, ops)) :
    dhcp_configureDefaultRoute R g i none = .ok (R, []) := by
  by_cases hc : routes.any (dhcpRouteMatches g i) = true
  · have hstep : dhcp_configureDefaultRoute routes g i none = .ok (routes, []) := by
      simp [dhcp_configureDefaultRoute, hc]
    rw [hstep] at h
    injection h with h2
    have hR : routes = R := congrArg Prod.fst h2
    subst hR
    simp [dhcp_configureDefaultRoute, hc]
  · have hstep : dhcp_configureDefaultRoute routes g i none =
        .ok ((routes.filter fun r =>
            !(dhcpIsDefault r && !(r.gw == some g && r.linkIndex == i))) ++ [defaultRouteTo g i],
          ((routes.filter fun r =>
            dhcpIsDefault r && !(r.gw == some g && r.linkIndex == i)).map KernelOp.delRoute)
            ++ [KernelOp.addRoute (defaultRouteTo g i)]) := by
      simp [dhcp_configureDefaultRoute, hc]
    rw [hstep] at h
    injection h with h2
    have hR : (routes.filter fun r =>
        !(dhcpIsDefault r && !(r.gw == some g && r.linkIndex == i))) ++ [defaultRouteTo g i] = R :=
      congrArg Prod.fst h2
    subst hR
    have hany : ((routes.filter fun r =>
        !(dhcpIsDefault r && !(r.gw == some g && r.linkIndex == i))) ++ [defaultRouteTo g i]).any
          (dhcpRouteMatches g i) = true := by
      simp [List.any_append, dhcpRouteMatches_target]
    simp [dhcp_configureDefaultRoute, hany, dhcpRouteMatches_target]

theorem static_configureDefaultRoute_second (routes : List Route) (g : Ip) (i : Nat)
    (R : List Route) (ops : List KernelOp)
    (h : static_configureDefaultRoute routes g i none = .ok (R, ops)) :
    static_configureDefaultRoute R g i none = .ok (R, []) := by
  rcases hscan : staticRouteScan g i routes with ⟨found, kept, sops⟩
  cases found with
  | true =>
    have hstep : static_configureDefaultRoute routes g i none = .ok (kept, sops) := by
      simp [static_configureDefaultRoute, hscan]
    rw [hstep] at h
    injection h with h2
    have hR : kept = R := congrArg Prod.fst h2
    subst hR
    have hfix := staticRouteScan_found_fixpoint g i routes kept sops hscan
    simp [static_configureDefaultRoute, hfix]
  | false =>
    have hstep : static_configureDefaultRoute routes g i none =
        .ok (kept ++ [defaultRouteTo g i], sops ++ [KernelOp.addRoute (defaultRouteTo g i)]) := by
      simp [static_configureDefaultRoute, hscan]
    rw [hstep] at h
    injection h with h2
    have hR : kept ++ [defaultRouteTo g i] = R := congrArg Prod.fst h2
    subst hR
    have hkept := staticRouteScan_unfound_kept g i routes kept sops hscan
    have hfix := staticRouteScan_skipped_append_target g i kept hkept
    simp [static_configureDefaultRoute, hfix]

theorem staticRouteScan_ops_shape (g : Ip) (i : Nat) (rs : List Route) :
    ∀ op ∈ (staticRouteScan g i rs).2.2, ∃ r, op = KernelOp.delRoute r ∧
      r.dst = none ∧ r.gw ≠ none ∧ ¬(r.gw = some g ∧ r.linkIndex = i) := by
  induction rs with
  | nil => simp [staticRouteScan]
  | cons r rest ih =>
    by_cases h1 : (r.dst == none && r.gw != none) = true
    · by_cases h2 : (r.gw == some g && r.linkIndex == i) = true
      · simp [staticRouteScan, h1, h2]
      · rcases hrest : staticRouteScan g i rest with ⟨found, kept2, ops2⟩
        have hstep : staticRouteScan g i (r :: rest) =
            (found, kept2, KernelOp.delRoute r :: ops2) := by
          simp [staticRouteScan, h1, h2, hrest]
        rw [hstep]
        intro op hop
        rcases List.mem_cons.mp hop with hop | hop
        · refine ⟨r, hop, ?_, ?_, ?_⟩
          · have := (Bool.and_eq_true ..).mp h1
            simpa using this.1
          · have := (Bool.and_eq_true ..).mp h1
            simpa using this.2
          · intro ⟨hg, hl⟩
            apply h2
            simp [hg, hl]
        · have := ih op
          rw [hrest] at this
          exact this hop
    · rcases hrest : staticRouteScan g i rest with ⟨found, kept2, ops2⟩
      have hstep : staticRouteScan g i (r :: rest) = (found, r :: kept2, ops2) := by
        simp [staticRouteScan, h1, hrest]
      rw [hstep]
      intro op hop
      have := ih op
      rw [hrest] at this
      exact this hop

/-- C1: after a successful route-reconciliation pass of the dhcp engine with
desired gateway `g` via link index `i`, some default route matching (g, i) is
present. When no matching default pre-existed, every surviving default route
matches (g, i) — the competing defaults are deleted before the single add.
When a matching default pre-existed, the pass leaves the route table untouched,
so a competing default via the same link survives (see the counterexample). -/
theorem C1_default_route_invariant (routes : List Route) (g : Ip) (i : Nat)
    (routes2 : List Route) (ops : List KernelOp)
    (h : dhcp_configureDefaultRoute routes g i none = .ok (routes2, ops)) :
    (∃ r ∈ routes2, dhcpRouteMatches g i r = true) ∧
    (if routes.any (dhcpRouteMatches g i) then routes2 = routes ∧ ops = []
     else (∀ r ∈ routes2, dhcpIsDefault r = true → r.gw = some g ∧ r.linkIndex = i) ∧
       ops = ((routes.filter fun r =>
           dhcpIsDefault r && !(r.gw == some g && r.linkIndex == i)).map KernelOp.delRoute)
         ++ [KernelOp.addRoute (defaultRouteTo g i)]) := by
  by_cases hc : routes.any (dhcpRouteMatches g i) = true
  · have hstep : dhcp_configureDefaultRoute routes g i none = .ok (routes, []) := by
      simp [dhcp_configureDefaultRoute, hc]
    rw [hstep] at h
    injection h with h2
    have hR : routes = routes2 := congrArg Prod.fst h2
    have hO : ([] : List KernelOp) = ops := congrArg Prod.snd h2
    subst hR hO
    refine ⟨?_, ?_⟩
    · rcases List.any_eq_true.mp hc with ⟨r, hr, hm⟩
      exact ⟨r, hr, hm⟩
    · simp [hc]
  · have hstep : dhcp_configureDefaultRoute routes g i none =
        .ok ((routes.filter fun r =>
            !(dhcpIsDefault r && !(r.gw == some g && r.linkIndex == i))) ++ [defaultRouteTo g i],
          ((routes.filter fun r =>
            dhcpIsDefault r && !(r.gw == some g && r.linkIndex == i)).map KernelOp.delRoute)
            ++ [KernelOp.addRoute (defaultRouteTo g i)]) := by
      simp [dhcp_configureDefaultRoute, hc]
    rw [hstep] at h
    injection h with h2
    have hR : (routes.filter fun r =>
        !(dhcpIsDefault r && !(r.gw == some g && r.linkIndex == i))) ++ [defaultRouteTo g i]
        = routes2 := congrArg Prod.fst h2
    have hO := congrArg Prod.snd h2
    subst hR
    refine ⟨⟨defaultRouteTo g i, by simp, dhcpRouteMatches_target g i⟩, ?_⟩
    rw [if_neg hc]
    refine ⟨?_, hO.symm⟩
    intro r hr hdef
    rcases List.mem_append.mp hr with hr | hr
    · have hp := List.of_mem_filter hr
      rw [hdef] at hp
      simp at hp
      exact hp
    · rcases List.mem_singleton.mp hr with rfl
      simp [defaultRouteTo]

/-- C1 witness: on an empty route table the pass installs the target default
route, which then matches. -/
theorem C1_default_route_invariant_witness :
    ∃ r ∈ ([defaultRouteTo ⟨10, 0, 0, 1⟩ 1] : List Route),
      dhcpRouteMatches ⟨10, 0, 0, 1⟩ 1 r = true :=
  (C1_default_route_invariant [] ⟨10, 0, 0, 1⟩ 1 [defaultRouteTo ⟨10, 0, 0, 1⟩ 1]
    [KernelOp.addRoute (defaultRouteTo ⟨10, 0, 0, 1⟩ 1)] rfl).1

/-- C1 counterexample: the kernel holds the matching default via link 1 and a
competing default via the same link 1 to another gateway; the pass short-cuts
on the match and performs no operation, so after this successful pass a default
route via link 1 still points to gateway 10.0.0.1, not 192.168.1.1 — the claim
that competing defaults via the interface are removed fails. -/
theorem C1_counterexample :
    dhcp_configureDefaultRoute
        [defaultRouteTo ⟨192, 168, 1, 1⟩ 1, defaultRouteTo ⟨10, 0, 0, 1⟩ 1]
        ⟨192, 168, 1, 1⟩ 1 none
      = .ok ([defaultRouteTo ⟨192, 168, 1, 1⟩ 1, defaultRouteTo ⟨10, 0, 0, 1⟩ 1], []) ∧
    dhcpIsDefault (defaultRouteTo ⟨10, 0, 0, 1⟩ 1) = true ∧
    (defaultRouteTo ⟨10, 0, 0, 1⟩ 1).linkIndex = 1 ∧
    (defaultRouteTo ⟨10, 0, 0, 1⟩ 1).gw ≠ some ⟨192, 168, 1, 1⟩ :=
  ⟨rfl, rfl, rfl, by decide⟩

/-- C2 (amended): an already-exists add outcome is treated as success only by
the static engine's default-route add (matched through the "file exists" error
text); the address add shared by both engines and the dhcp engine's
default-route add propagate the error and fail the pass. -/
theorem C2_exists_outcome_handling (e : String) (routes : List Route)
    (existing : List Addr) (target : Addr) (g : Ip) (i : Nat)
    (hfe : strContains e ("file exists") = true)
    (hnr : routes.any (staticRouteMatches g i) = false)
    (hnd : routes.any (dhcpRouteMatches g i) = false)
    (hna : existing.any (fun a => a.ip == target.ip && a.mask == target.mask) = false) :
    exceptIsErr (static_configureDefaultRoute routes g i (some e)) = false ∧
    exceptIsErr (reconcileAddresses existing target (some e)) = true ∧
    exceptIsErr (dhcp_configureDefaultRoute routes g i (some e)) = true := by
  refine ⟨?_, ?_, ?_⟩
  · rcases hscan : staticRouteScan g i routes with ⟨found, kept, sops⟩
    have hfst : found = routes.any (staticRouteMatches g i) := by
      have := staticRouteScan_fst g i routes
      rw [hscan] at this
      exact this
    rw [hnr] at hfst
    subst hfst
    simp [static_configureDefaultRoute, hscan, hfe, exceptIsErr]
  · simp [reconcileAddresses, hna, exceptIsErr]
  · simp [dhcp_configureDefaultRoute, hnd, exceptIsErr]

/-- C2 witness: a concrete "file exists" outcome at empty kernel state. -/
theorem C2_exists_outcome_handling_witness :
    strContains ("file exists") ("file exists") = true ∧
    (exceptIsErr (static_configureDefaultRoute [] ⟨10, 0, 0, 1⟩ 1 (some ("file exists"))) = false ∧
     exceptIsErr (reconcileAddresses [] ⟨⟨10, 0, 0, 2⟩, ⟨255, 255, 255, 0⟩⟩
        (some ("file exists"))) = true ∧
     exceptIsErr (dhcp_configureDefaultRoute [] ⟨10, 0, 0, 1⟩ 1 (some ("file exists"))) = true) :=
  ⟨by decide,
    C2_exists_outcome_handling ("file exists") [] [] ⟨⟨10, 0, 0, 2⟩, ⟨255, 255, 255, 0⟩⟩
      ⟨10, 0, 0, 1⟩ 1 (by decide) rfl rfl rfl⟩

/-- C2 counterexample: the dhcp engine's pass fails on an already-exists
outcome of the target-address add instead of treating it as success. -/
theorem C2_counterexample :
    reconcileAddresses [] ⟨⟨192, 168, 1, 100⟩, ⟨255, 255, 255, 0⟩⟩ (some ("file exists"))
      = .error ("failed to add IP address: file exists") := rfl

/-- C3: the reconciliation pass of either engine is idempotent — a second pass
over the kernel state a first successful pass left behind (unchanged in
between) performs no address add, no address delete, no route add and no route
delete, and leaves the state as it was. -/
theorem dhcp_applyPass_addr_error (addrs : List Addr) (routes : List Route)
    (target : Addr) (gw : Option Ip) (i : Nat) (e : String)
    (ha : reconcileAddresses addrs target none = .error e) :
    dhcp_applyPass addrs routes target gw i = .error e := by
  rw [dhcp_applyPass, ha]
  rfl

theorem dhcp_applyPass_none_eq (addrs : List Addr) (routes : List Route)
    (target : Addr) (i : Nat) (A : List Addr) (aops : List KernelOp)
    (ha : reconcileAddresses addrs target none = .ok (A, aops)) :
    dhcp_applyPass addrs routes target none i = .ok (A, routes, aops) := by
  rw [dhcp_applyPass, ha]
  rfl

theorem dhcp_applyPass_some_eq (addrs : List Addr) (routes : List Route)
    (target : Addr) (g : Ip) (i : Nat) (A : List Addr) (aops : List KernelOp)
    (R : List Route) (rops : List KernelOp)
    (ha : reconcileAddresses addrs target none = .ok (A, aops))
    (hr : dhcp_configureDefaultRoute routes g i none = .ok (R, rops)) :
    dhcp_applyPass addrs routes target (some g) i = .ok (A, R, aops ++ rops) := by
  rw [dhcp_applyPass, ha]
  show (do
    let p ← dhcp_configureDefaultRoute routes g i none
    pure (A, p.1, aops ++ p.2) :
      Except String (List Addr × List Route × List KernelOp)) = _
  rw [hr]
  rfl

theorem dhcp_applyPass_route_error (addrs : List Addr) (routes : List Route)
    (target : Addr) (g : Ip) (i : Nat) (A : List Addr) (aops : List KernelOp)
    (e : String)
    (ha : reconcileAddresses addrs target none = .ok (A, aops))
    (hr : dhcp_configureDefaultRoute routes g i none = .error e) :
    dhcp_applyPass addrs routes target (some g) i = .error e := by
  rw [dhcp_applyPass, ha]
  show (do
    let p ← dhcp_configureDefaultRoute routes g i none
    pure (A, p.1, aops ++ p.2) :
      Except String (List Addr × List Route × List KernelOp)) = _
  rw [hr]
  rfl

theorem static_applyPass_addr_error (addrs : List Addr) (routes : List Route)
    (target : Addr) (gw : Option Ip) (i : Nat) (e : String)
    (ha : reconcileAddresses addrs target none = .error e) :
    static_applyPass addrs routes target gw i = .error e := by
  rw [static_applyPass, ha]
  rfl

theorem static_applyPass_none_eq (addrs : List Addr) (routes : List Route)
    (target : Addr) (i : Nat) (A : List Addr) (aops : List KernelOp)
    (ha : reconcileAddresses addrs target none = .ok (A, aops)) :
    static_applyPass addrs routes target none i = .ok (A, routes, aops) := by
  rw [static_applyPass, ha]
  rfl

theorem static_applyPass_some_eq (addrs : List Addr) (routes : List Route)
    (target : Addr) (g : Ip) (i : Nat) (A : List Addr) (aops : List KernelOp)
    (R : List Route) (rops : List KernelOp)
    (ha : reconcileAddresses addrs target none = .ok (A, aops))
    (hr : static_configureDefaultRoute routes g i none = .ok (R, rops)) :
    static_applyPass addrs routes target (some g) i = .ok (A, R, aops ++ rops) := by
  rw [static_applyPass, ha]
  show (do
    let p ← static_configureDefaultRoute routes g i none
    pure (A, p.1, aops ++ p.2) :
      Except String (List Addr × List Route × List KernelOp)) = _
  rw [hr]
  rfl

theorem static_applyPass_route_error (addrs : List Addr) (routes : List Route)
    (target : Addr) (g : Ip) (i : Nat) (A : List Addr) (aops : List KernelOp)
    (e : String)
    (ha : reconcileAddresses addrs target none = .ok (A, aops))
    (hr : static_configureDefaultRoute routes g i none = .error e) :
    static_applyPass addrs routes target (some g) i = .error e := by
  rw [static_applyPass, ha]
  show (do
    let p ← static_configureDefaultRoute routes g i none
    pure (A, p.1, aops ++ p.2) :
      Except String (List Addr × List Route × List KernelOp)) = _
  rw [hr]
  rfl

/-- C3: the reconciliation pass of either engine is idempotent — a second pass
over the kernel state a first successful pass left behind (unchanged in
between) performs no address add, no address delete, no route add and no route
delete, and leaves the state as it was. -/
theorem C3_idempotent (addrs : List Addr) (routes : List Route) (target : Addr)
    (gw : Option Ip) (i : Nat)
    (a1 r1 : List Addr × List Route) (o1 o2 : List KernelOp)
    (hd : dhcp_applyPass addrs routes target gw i = .ok (a1.1, a1.2, o1))
    (hs : static_applyPass addrs routes target gw i = .ok (r1.1, r1.2, o2)) :
    dhcp_applyPass a1.1 a1.2 target gw i = .ok (a1.1, a1.2, []) ∧
    static_applyPass r1.1 r1.2 target gw i = .ok (r1.1, r1.2, []) := by
  constructor
  · rcases ha : reconcileAddresses addrs target none with e | ⟨A, aops⟩
    · rw [dhcp_applyPass_addr_error addrs routes target gw i e ha] at hd
      exact Except.noConfusion hd
    · have ha2 := reconcileAddresses_second addrs target A aops ha
      cases gw with
      | none =>
        rw [dhcp_applyPass_none_eq addrs routes target i A aops ha] at hd
        injection hd with h2
        have hA : A = a1.1 := congrArg Prod.fst h2
        have hR : routes = a1.2 := congrArg (fun p => p.2.1) h2
        rw [← hA, ← hR]
        exact dhcp_applyPass_none_eq A routes target i A [] ha2
      | some g =>
        rcases hr : dhcp_configureDefaultRoute routes g i none with e | ⟨R, rops⟩
        · rw [dhcp_applyPass_route_error addrs routes target g i A aops e ha hr] at hd
          exact Except.noConfusion hd
        · have hr2 := dhcp_configureDefaultRoute_second routes g i R rops hr
          rw [dhcp_applyPass_some_eq addrs routes target g i A aops R rops ha hr] at hd
          injection hd with h2
          have hA : A = a1.1 := congrArg Prod.fst h2
          have hR : R = a1.2 := congrArg (fun p => p.2.1) h2
          rw [← hA, ← hR]
          exact dhcp_applyPass_some_eq A R target g i A [] R [] ha2 hr2
  · rcases ha : reconcileAddresses addrs target none with e | ⟨A, aops⟩
    · rw [static_applyPass_addr_error addrs routes target gw i e ha] at hs
      exact Except.noConfusion hs
    · have ha2 := reconcileAddresses_second addrs target A aops ha
      cases gw with
      | none =>
        rw [static_applyPass_none_eq addrs routes target i A aops ha] at hs
        injection hs with h2
        have hA : A = r1.1 := congrArg Prod.fst h2
        have hR : routes = r1.2 := congrArg (fun p => p.2.1) h2
        rw [← hA, ← hR]
        exact static_applyPass_none_eq A routes target i A [] ha2
      | some g =>
        rcases hr : static_configureDefaultRoute routes g i none with e | ⟨R, rops⟩
        · rw [static_applyPass_route_error addrs routes target g i A aops e ha hr] at hs
          exact Except.noConfusion hs
        · have hr2 := static_configureDefaultRoute_second routes g i R rops hr
          rw [static_applyPass_some_eq addrs routes target g i A aops R rops ha hr] at hs
          injection hs with h2
          have hA : A = r1.1 := congrArg Prod.fst h2
          have hR : R = r1.2 := congrArg (fun p => p.2.1) h2
          rw [← hA, ← hR]
          exact static_applyPass_some_eq A R target g i A [] R [] ha2 hr2

/-- C3 witness: a fresh interface (no addresses, no routes) is configured by
the first pass; the second pass does nothing, for both engines. -/
theorem C3_idempotent_witness :
    dhcp_applyPass [⟨⟨192, 168, 1, 100⟩, ⟨255, 255, 255, 0⟩⟩]
        [defaultRouteTo ⟨192, 168, 1, 1⟩ 1] ⟨⟨192, 168, 1, 100⟩, ⟨255, 255, 255, 0⟩⟩
        (some ⟨192, 168, 1, 1⟩) 1
      = .ok ([⟨⟨192, 168, 1, 100⟩, ⟨255, 255, 255, 0⟩⟩],
          [defaultRouteTo ⟨192, 168, 1, 1⟩ 1], []) ∧
    static_applyPass [⟨⟨192, 168, 1, 100⟩, ⟨255, 255, 255, 0⟩⟩]
        [defaultRouteTo ⟨192, 168, 1, 1⟩ 1] ⟨⟨192, 168, 1, 100⟩, ⟨255, 255, 255, 0⟩⟩
        (some ⟨192, 168, 1, 1⟩) 1
      = .ok ([⟨⟨192, 168, 1, 100⟩, ⟨255, 255, 255, 0⟩⟩],
          [defaultRouteTo ⟨192, 168, 1, 1⟩ 1], []) :=
  C3_idempotent [] [] ⟨⟨192, 168, 1, 100⟩, ⟨255, 255, 255, 0⟩⟩ (some ⟨192, 168, 1, 1⟩) 1
    (⟨[⟨⟨192, 168, 1, 100⟩, ⟨255, 255, 255, 0⟩⟩], [defaultRouteTo ⟨192, 168, 1, 1⟩ 1]⟩)
    (⟨[⟨⟨192, 168, 1, 100⟩, ⟨255, 255, 255, 0⟩⟩], [defaultRouteTo ⟨192, 168, 1, 1⟩ 1]⟩)
    [KernelOp.addAddr ⟨⟨192, 168, 1, 100⟩, ⟨255, 255, 255, 0⟩⟩,
      KernelOp.addRoute (defaultRouteTo ⟨192, 168, 1, 1⟩ 1)]
    [KernelOp.addAddr ⟨⟨192, 168, 1, 100⟩, ⟨255, 255, 255, 0⟩⟩,
      KernelOp.addRoute (defaultRouteTo ⟨192, 168, 1, 1⟩ 1)]
    rfl rfl

/-- C4 (amended): the dhcp engine classifies a current route as default exactly
when its destination is absent or equals 0.0.0.0/0 — an identified matching
default suppresses the add (the pass issues no operation at all) and, when none
matches, exactly the non-matching defaults are pruned. The static engine
instead examines only routes with absent destination and non-nil gateway: its
add is suppressed exactly when such a route matches the target, and it only
ever deletes such routes — a default expressed with an explicit 0.0.0.0/0
destination is neither matched nor pruned there. -/
theorem C4_default_classification (routes : List Route) (g : Ip) (i : Nat)
    (Rd Rs : List Route) (dops sops : List KernelOp)
    (hd : dhcp_configureDefaultRoute routes g i none = .ok (Rd, dops))
    (hs : static_configureDefaultRoute routes g i none = .ok (Rs, sops)) :
    ((dops = []) ↔ routes.any (dhcpRouteMatches g i) = true) ∧
    (∀ r, KernelOp.delRoute r ∈ dops ↔
      (routes.any (dhcpRouteMatches g i) = false ∧ r ∈ routes ∧
        dhcpIsDefault r = true ∧ ¬(r.gw = some g ∧ r.linkIndex = i))) ∧
    ((KernelOp.addRoute (defaultRouteTo g i) ∈ sops) ↔
      routes.any (staticRouteMatches g i) = false) ∧
    (∀ r, KernelOp.delRoute r ∈ sops →
      r.dst = none ∧ r.gw ≠ none ∧ ¬(r.gw = some g ∧ r.linkIndex = i)) := by
  have hdparts : ((dops = []) ↔ routes.any (dhcpRouteMatches g i) = true) ∧
      (∀ r, KernelOp.delRoute r ∈ dops ↔
        (routes.any (dhcpRouteMatches g i) = false ∧ r ∈ routes ∧
          dhcpIsDefault r = true ∧ ¬(r.gw = some g ∧ r.linkIndex = i))) := by
    by_cases hc : routes.any (dhcpRouteMatches g i) = true
    · have hstep : dhcp_configureDefaultRoute routes g i none = .ok (routes, []) := by
        simp [dhcp_configureDefaultRoute, hc]
      rw [hstep] at hd
      injection hd with h2
      have hO : ([] : List KernelOp) = dops := congrArg Prod.snd h2
      subst hO
      refine ⟨by simp [hc], ?_⟩
      intro r
      simp [hc]
    · have hstep : dhcp_configureDefaultRoute routes g i none =
          .ok ((routes.filter fun r =>
              !(dhcpIsDefault r && !(r.gw == some g && r.linkIndex == i))) ++ [defaultRouteTo g i],
            ((routes.filter fun r =>
              dhcpIsDefault r && !(r.gw == some g && r.linkIndex == i)).map KernelOp.delRoute)
              ++ [KernelOp.addRoute (defaultRouteTo g i)]) := by
        simp [dhcp_configureDefaultRoute, hc]
      rw [hstep] at hd
      injection hd with h2
      have hO : ((routes.filter fun r =>
          dhcpIsDefault r && !(r.gw == some g && r.linkIndex == i)).map KernelOp.delRoute)
          ++ [KernelOp.addRoute (defaultRouteTo g i)] = dops := congrArg Prod.snd h2
      subst hO
      constructor
      · simp [hc]
      · intro r
        constructor
        · intro hmem
          rcases List.mem_append.mp hmem with hmem | hmem
          · rcases List.mem_map.mp hmem with ⟨x, hx, hxr⟩
            have hxr2 : x = r := by
              injection hxr
            subst hxr2
            have hp := List.of_mem_filter hx
            refine ⟨Bool.not_eq_true _ ▸ hc, List.mem_of_mem_filter hx, ?_, ?_⟩
            · exact (Bool.and_eq_true ..).mp hp |>.1
            · have := (Bool.and_eq_true ..).mp hp |>.2
              intro ⟨hg, hl⟩
              simp [hg, hl] at this
          · simp at hmem
        · intro ⟨hne, hmem, hdef, hnm⟩
          apply List.mem_append.mpr
          left
          apply List.mem_map.mpr
          refine ⟨r, ?_, rfl⟩
          apply List.mem_filter.mpr
          refine ⟨hmem, ?_⟩
          rw [hdef]
          simp only [Bool.true_and, Bool.not_eq_true']
          by_contra hcon
          rw [Bool.not_eq_false] at hcon
          rcases (Bool.and_eq_true ..).mp hcon with ⟨hg, hl⟩
          exact hnm ⟨by simpa using hg, by simpa using hl⟩
  refine ⟨hdparts.1, hdparts.2, ?_, ?_⟩
  · rcases hscan : staticRouteScan g i routes with ⟨found, kept, ops⟩
    have hfst : found = routes.any (staticRouteMatches g i) := by
      have := staticRouteScan_fst g i routes
      rw [hscan] at this
      exact this
    have hops := staticRouteScan_ops_shape g i routes
    rw [hscan] at hops
    cases found with
    | true =>
      have hstep : static_configureDefaultRoute routes g i none = .ok (kept, ops) := by
        simp [static_configureDefaultRoute, hscan]
      rw [hstep] at hs
      injection hs with h2
      have hO : ops = sops := congrArg Prod.snd h2
      subst hO
      rw [← hfst]
      simp only [Bool.true_eq_false, iff_false]
      intro hmem
      rcases hops _ hmem with ⟨r, hr, -⟩
      exact KernelOp.noConfusion hr
    | false =>
      have hstep : static_configureDefaultRoute routes g i none =
          .ok (kept ++ [defaultRouteTo g i], ops ++ [KernelOp.addRoute (defaultRouteTo g i)]) := by
        simp [static_configureDefaultRoute, hscan]
      rw [hstep] at hs
      injection hs with h2
      have hO : ops ++ [KernelOp.addRoute (defaultRouteTo g i)] = sops := congrArg Prod.snd h2
      subst hO
      rw [← hfst]
      simp
  · rcases hscan : staticRouteScan g i routes with ⟨found, kept, ops⟩
    have hops := staticRouteScan_ops_shape g i routes
    rw [hscan] at hops
    cases found with
    | true =>
      have hstep : static_configureDefaultRoute routes g i none = .ok (kept, ops) := by
        simp [static_configureDefaultRoute, hscan]
      rw [hstep] at hs
      injection hs with h2
      have hO : ops = sops := congrArg Prod.snd h2
      subst hO
      intro r hmem
      rcases hops _ hmem with ⟨x, hx, hprops⟩
      have hxr : x = r := by
        injection hx with h3
        exact h3.symm
      subst hxr
      exact hprops
    | false =>
      have hstep : static_configureDefaultRoute routes g i none =
          .ok (kept ++ [defaultRouteTo g i], ops ++ [KernelOp.addRoute (defaultRouteTo g i)]) := by
        simp [static_configureDefaultRoute, hscan]
      rw [hstep] at hs
      injection hs with h2
      have hO : ops ++ [KernelOp.addRoute (defaultRouteTo g i)] = sops := congrArg Prod.snd h2
      subst hO
      intro r hmem
      rcases List.mem_append.mp hmem with hmem | hmem
      · rcases hops _ hmem with ⟨x, hx, hprops⟩
        have hxr : x = r := by
          injection hx with h3
          exact h3.symm
        subst hxr
        exact hprops
      · simp at hmem

/-- C4 witness: one stale default via another link is pruned by both engines,
then the target is added. -/
theorem C4_default_classification_witness :
    ((([KernelOp.delRoute ⟨none, some ⟨10, 0, 0, 9⟩, 7⟩,
        KernelOp.addRoute (defaultRouteTo ⟨10, 0, 0, 1⟩ 1)] : List KernelOp) = []) ↔
      ([⟨none, some ⟨10, 0, 0, 9⟩, 7⟩] : List Route).any
        (dhcpRouteMatches ⟨10, 0, 0, 1⟩ 1) = true) ∧
    (∀ r, KernelOp.delRoute r ∈
        ([KernelOp.delRoute ⟨none, some ⟨10, 0, 0, 9⟩, 7⟩,
          KernelOp.addRoute (defaultRouteTo ⟨10, 0, 0, 1⟩ 1)] : List KernelOp) ↔
      (([⟨none, some ⟨10, 0, 0, 9⟩, 7⟩] : List Route).any
          (dhcpRouteMatches ⟨10, 0, 0, 1⟩ 1) = false ∧
        r ∈ ([⟨none, some ⟨10, 0, 0, 9⟩, 7⟩] : List Route) ∧
        dhcpIsDefault r = true ∧
        ¬(r.gw = some ⟨10, 0, 0, 1⟩ ∧ r.linkIndex = 1))) ∧
    ((KernelOp.addRoute (defaultRouteTo ⟨10, 0, 0, 1⟩ 1) ∈
        ([KernelOp.delRoute ⟨none, some ⟨10, 0, 0, 9⟩, 7⟩,
          KernelOp.addRoute (defaultRouteTo ⟨10, 0, 0, 1⟩ 1)] : List KernelOp)) ↔
      ([⟨none, some ⟨10, 0, 0, 9⟩, 7⟩] : List Route).any
        (staticRouteMatches ⟨10, 0, 0, 1⟩ 1) = false) ∧
    (∀ r, KernelOp.delRoute r ∈
        ([KernelOp.delRoute ⟨none, some ⟨10, 0, 0, 9⟩, 7⟩,
          KernelOp.addRoute (defaultRouteTo ⟨10, 0, 0, 1⟩ 1)] : List KernelOp) →
      r.dst = none ∧ r.gw ≠ none ∧ ¬(r.gw = some ⟨10, 0, 0, 1⟩ ∧ r.linkIndex = 1)) :=
  C4_default_classification [⟨none, some ⟨10, 0, 0, 9⟩, 7⟩] ⟨10, 0, 0, 1⟩ 1
    [defaultRouteTo ⟨10, 0, 0, 1⟩ 1] [defaultRouteTo ⟨10, 0, 0, 1⟩ 1]
    [KernelOp.delRoute ⟨none, some ⟨10, 0, 0, 9⟩, 7⟩,
      KernelOp.addRoute (defaultRouteTo ⟨10, 0, 0, 1⟩ 1)]
    [KernelOp.delRoute ⟨none, some ⟨10, 0, 0, 9⟩, 7⟩,
      KernelOp.addRoute (defaultRouteTo ⟨10, 0, 0, 1⟩ 1)]
    rfl rfl

/-- C4 counterexample: a current default route written with the explicit
destination 0.0.0.0/0 that matches the target gateway and link — a default
route under the claim's classification, as the dhcp check confirms — does not
suppress the static engine's add: the static pass still issues the AddRoute. -/
theorem C4_counterexample :
    static_configureDefaultRoute [⟨some zeroCidr, some ⟨192, 168, 1, 1⟩, 1⟩]
        ⟨192, 168, 1, 1⟩ 1 none
      = .ok ([⟨some zeroCidr, some ⟨192, 168, 1, 1⟩, 1⟩, defaultRouteTo ⟨192, 168, 1, 1⟩ 1],
          [KernelOp.addRoute (defaultRouteTo ⟨192, 168, 1, 1⟩ 1)]) ∧
    dhcpRouteMatches ⟨192, 168, 1, 1⟩ 1 ⟨some zeroCidr, some ⟨192, 168, 1, 1⟩, 1⟩ = true :=
  ⟨rfl, rfl⟩

/-- C5: when every lease request errors, getDHCPLease makes exactly 3 attempts
with a 2-second sleep between consecutive attempts and returns the error; the
Run cycle then arms the retry timer for 30 seconds and issues no kernel
operation, leaving addresses and routes untouched. -/
theorem C5_retry_exhaustion (att : Nat → Except String Lease)
    (addrs : List Addr) (routes : List Route) (i : Nat)
    (h1 : exceptIsErr (att 1) = true)
    (h2 : exceptIsErr (att 2) = true)
    (h3 : exceptIsErr (att 3) = true) :
    exceptIsErr (getDHCPLease att).1 = true ∧
    (getDHCPLease att).2.1 = 3 ∧
    (getDHCPLease att).2.2 = [2, 2] ∧
    dhcp_runCycle att addrs routes i = (30, [], addrs, routes) := by
  rcases ha1 : att 1 with e1 | l1
  · rcases ha2 : att 2 with e2 | l2
    · rcases ha3 : att 3 with e3 | l3
      · have hlease : getDHCPLease att =
            (.error ("DHCP lease request failed after 3 attempts: " ++ e3), 3, [2, 2]) := by
          rw [getDHCPLease, leaseRetryLoop, ha1]
          rw [leaseRetryLoop, ha2]
          rw [leaseRetryLoop, ha3]
          rfl
        refine ⟨?_, ?_, ?_, ?_⟩
        · rw [hlease]
          rfl
        · rw [hlease]
        · rw [hlease]
        · rw [dhcp_runCycle, hlease]
      · rw [ha3] at h3
        exact Bool.noConfusion h3
    · rw [ha2] at h2
      exact Bool.noConfusion h2
  · rw [ha1] at h1
    exact Bool.noConfusion h1

/-- C5 witness: a transport that always times out. -/
theorem C5_retry_exhaustion_witness :
    exceptIsErr (getDHCPLease fun _ => .error ("Timeout")).1 = true ∧
    (getDHCPLease fun _ => .error ("Timeout")).2.1 = 3 ∧
    (getDHCPLease fun _ => .error ("Timeout")).2.2 = [2, 2] ∧
    dhcp_runCycle (fun _ => .error ("Timeout")) [] [] 1 = (30, [], [], []) :=
  C5_retry_exhaustion (fun _ => .error ("Timeout")) [] [] 1 rfl rfl rfl

/-- C6 (amended): the static adapter actually wired into the daemon validates
nothing about the configured values at construction — NewManager only requires
the interface to exist and a static section to be present, storing the values
unexamined, so construction succeeds on unparseable or IPv6 values. The value
validation the claim describes (ip and netmask parse as IPv4, gateway if
present parses as IPv4, IPv6 literals rejected) exists in the legacy static
client's validateConfig, which runs when Run starts, not at construction. -/
theorem C6_static_validation (name : String) (v : StaticValues) (cfg : StaticValues) :
    static_NewManager name true (some v) = .ok ⟨name, v⟩ ∧
    (static_validateConfig cfg = none ↔
      (isV4 cfg.ip = true ∧ isV4 cfg.netmask = true ∧
        ∀ gv ∈ cfg.gateway, isV4 gv = true)) := by
  constructor
  · rfl
  · cases hip : cfg.ip <;> cases hnm : cfg.netmask <;>
      rcases hgw : cfg.gateway with - | gv <;>
      (try cases gv) <;>
      simp [static_validateConfig, parsesAsIP, isV4, hip, hnm, hgw]

/-- C6 witness: a well-formed IPv4 static policy passes the legacy validator,
and construction succeeds for it too. -/
theorem C6_static_validation_witness :
    static_NewManager ("eth1") true
        (some ⟨IpLiteral.v4 192 168 1 100, IpLiteral.v4 255 255 255 0,
          some (IpLiteral.v4 192 168 1 1)⟩)
      = .ok ⟨"eth1", ⟨IpLiteral.v4 192 168 1 100, IpLiteral.v4 255 255 255 0,
          some (IpLiteral.v4 192 168 1 1)⟩⟩ ∧
    (static_validateConfig ⟨IpLiteral.v4 192 168 1 100, IpLiteral.v4 255 255 255 0,
        some (IpLiteral.v4 192 168 1 1)⟩ = none ↔
      (isV4 (IpLiteral.v4 192 168 1 100) = true ∧
        isV4 (IpLiteral.v4 255 255 255 0) = true ∧
        ∀ gv ∈ (some (IpLiteral.v4 192 168 1 1) : Option IpLiteral), isV4 gv = true)) :=
  C6_static_validation ("eth1")
    ⟨IpLiteral.v4 192 168 1 100, IpLiteral.v4 255 255 255 0, some (IpLiteral.v4 192 168 1 1)⟩
    ⟨IpLiteral.v4 192 168 1 100, IpLiteral.v4 255 255 255 0, some (IpLiteral.v4 192 168 1 1)⟩

/-- C6 counterexample: construction of the wired static engine succeeds even
though neither ip nor netmask parses as an IP at all — engine construction
does not fail on an invalid value, contradicting the claim. -/
theorem C6_counterexample :
    static_NewManager ("eth1") true
        (some ⟨IpLiteral.malformed ("not-an-ip"), IpLiteral.malformed ("bogus"), none⟩)
      = .ok ⟨"eth1", ⟨IpLiteral.malformed ("not-an-ip"), IpLiteral.malformed ("bogus"), none⟩⟩ ∧
    parsesAsIP (IpLiteral.malformed ("not-an-ip")) = false :=
  ⟨rfl, rfl⟩

/-- C7 (amended): no rejection of non-contiguous dotted-quad netmasks happens
anywhere — configuration validation only requires ip and netmask to be
non-empty strings, the legacy static validator only requires the netmask to
parse as IPv4, and the apply path uses the parsed mask bytes verbatim without
converting them to a prefix length. -/
theorem C7_mask_handling (name : String) (s : StaticStrings) (a b c d : Nat)
    (ip : IpLiteral) (m : IpLiteral)
    (hip : (s.ip == "") = false) (hnm : (s.netmask == "") = false)
    (hipv : isV4 ip = true) (hpm : parsesAsIP m = true) (hpi : parsesAsIP ip = true) :
    validateStaticConfig name s = none ∧
    static_validateConfig ⟨ip, .v4 a b c d, none⟩ = none ∧
    static_buildIPNet ip m = .ok (ip, m) := by
  refine ⟨?_, ?_, ?_⟩
  · simp only [validateStaticConfig, hip, hnm]
    rfl
  · cases ip with
    | v4 pa pb pc pd => simp [static_validateConfig, parsesAsIP, isV4]
    | v6 t => exact absurd hipv (by simp [isV4])
    | malformed str => exact absurd hipv (by simp [isV4])
  · simp only [static_buildIPNet, hpi, hpm]
    rfl

/-- C7 witness: the non-contiguous mask 255.0.255.0 sails through every check,
and it is indeed not a leading-ones mask. -/
theorem C7_mask_handling_witness :
    (validateStaticConfig ("eth1") ⟨"10.0.0.5", "255.0.255.0", "10.0.0.1"⟩ = none ∧
      static_validateConfig ⟨IpLiteral.v4 10 0 0 5, IpLiteral.v4 255 0 255 0, none⟩ = none ∧
      static_buildIPNet (IpLiteral.v4 10 0 0 5) (IpLiteral.v4 255 0 255 0)
        = .ok (IpLiteral.v4 10 0 0 5, IpLiteral.v4 255 0 255 0)) ∧
    contiguousMask 255 0 255 0 = false :=
  ⟨C7_mask_handling ("eth1") ⟨"10.0.0.5", "255.0.255.0", "10.0.0.1"⟩ 255 0 255 0
      (IpLiteral.v4 10 0 0 5) (IpLiteral.v4 255 0 255 0)
      (by decide) (by decide) rfl rfl rfl,
    by decide⟩

/-- C7 counterexample: the policy with netmask 255.0.255.0 — not a contiguous
leading-ones mask — is accepted by configuration validation and by the legacy
static validator; nothing rejects it at policy-construction time. -/
theorem C7_counterexample :
    contiguousMask 255 0 255 0 = false ∧
    validateStaticConfig ("eth1") ⟨"10.0.0.5", "255.0.255.0", "10.0.0.1"⟩ = none ∧
    static_validateConfig ⟨IpLiteral.v4 10 0 0 5, IpLiteral.v4 255 0 255 0, none⟩ = none := by
  refine ⟨by decide, ?_, ?_⟩ <;> rfl

/-- C8: the serve handler prints the configuration load or validation error
and merely returns; because serveCmd declares a cobra Run handler (which
surfaces no error to Execute), cobra.CheckErr sees a nil error and the process
terminates with exit code 0 — not the non-zero exit the specification
requires. Evaluated here at a failing configuration load and at a failing
validation. -/
theorem C8_config_failure_exit_code :
    serveRun (.error ("failed to read config file /nonexistent/config.yml")) none
      = .configError ("Config error: failed to read config file /nonexistent/config.yml") ∧
    processExitCode (serveSurfacedError
      (serveRun (.error ("failed to read config file /nonexistent/config.yml")) none)) = 0 ∧
    serveRun (.ok ()) (some ("no interfaces configured"))
      = .validateError ("Config validation error: no interfaces configured") ∧
    processExitCode (serveSurfacedError
      (serveRun (.ok ()) (some ("no interfaces configured")))) = 0 :=
  ⟨rfl, rfl, rfl, rfl⟩

/-- C9: on a DHCP pass whose lease carries DNS servers, the resolver update
runs, reads the current file first, skips the write exactly when the current
bytes equal the prospective bytes, and otherwise writes mode 0644 with the
generator header followed by one nameserver line per server in order; a failed
read also leads to the write. -/
theorem C9_resolver_update (dns : List Ip) (cur e : String) (hne : dns ≠ []) :
    dhcp_dnsStep (.ok cur) dns = some (configureDNS (.ok cur) dns) ∧
    configureDNS (.ok cur) dns =
      (if cur = resolvConfContent dns then .skipped
       else .wrote (resolvConfContent dns) 0o644) ∧
    configureDNS (.error e) dns = .wrote (resolvConfContent dns) 0o644 ∧
    resolvConfContent dns = "# Generated by golang-dhcpcd\n" ++
      String.join (dns.map fun d => "nameserver " ++ ipToString d ++ "\n") := by
  refine ⟨?_, ?_, rfl, rfl⟩
  · rw [dhcp_dnsStep]
    rw [if_pos]
    exact List.length_pos.mpr hne
  · rw [configureDNS]
    by_cases hc : cur = resolvConfContent dns
    · simp [hc]
    · simp [hc]

/-- C9 witness: one DNS server; an unreadable current file leads to the write,
and a current file already holding the content leads to a skip. -/
theorem C9_resolver_update_witness :
    ([⟨8, 8, 8, 8⟩] : List Ip) ≠ [] ∧
    (dhcp_dnsStep (.ok ("old content")) [⟨8, 8, 8, 8⟩]
        = some (configureDNS (.ok ("old content")) [⟨8, 8, 8, 8⟩]) ∧
      configureDNS (.ok ("old content")) [⟨8, 8, 8, 8⟩] =
        (if ("old content" : String) = resolvConfContent [⟨8, 8, 8, 8⟩] then .skipped
         else .wrote (resolvConfContent [⟨8, 8, 8, 8⟩]) 0o644) ∧
      configureDNS (.error ("read failed")) [⟨8, 8, 8, 8⟩]
        = .wrote (resolvConfContent [⟨8, 8, 8, 8⟩]) 0o644 ∧
      resolvConfContent [⟨8, 8, 8, 8⟩] = "# Generated by golang-dhcpcd\n" ++
        String.join (([⟨8, 8, 8, 8⟩] : List Ip).map fun d =>
          "nameserver " ++ ipToString d ++ "\n")) :=
  ⟨by decide, C9_resolver_update [⟨8, 8, 8, 8⟩] ("old content") ("read failed") (by decide)⟩

/-- C10: if the static engine's initial apply pass fails, Run returns that
error (wrapped) and the monitor loop processes zero ticks; if the initial pass
succeeds, every tick of the monitor loop is processed even when ticks fail —
failures are only collected in the log and the loop continues. -/
theorem C10_static_run_error_handling (e : String) (ticks : List (Option String)) :
    static_Run (some e) ticks
      = .error ("failed to apply static configuration: " ++ e) ∧
    static_Run none ticks = .ok (ticks.length, ticks.filterMap id) := by
  constructor
  · rfl
  · rw [static_Run]
    have hloop : ∀ ts : List (Option String),
        static_monitorLoop ts = (ts.length, ts.filterMap id) := by
      intro ts
      induction ts with
      | nil => rfl
      | cons t rest ih =>
        cases t <;> simp [static_monitorLoop, ih, List.filterMap_cons]
    rw [hloop]

end GolangDhcpcd
